import Mathlib

set_option maxRecDepth 100000

/-!
Verification development for `src/scripts/src/cowidev/vax/incremental/kenya.py`
(repository damiantaranto/covid-19-data).

The Python scraper is embedded shallowly over `List Char` strings:

* pages of the PDF and hrefs are `List Char`;
* every regex of the script is embedded as a token list (`Tok`) together with
  a leftmost-search matcher `reSearch` that mirrors `re.search`: literal
  pieces, optional pieces (`e?`, `(day )?`, `,?` — tried greedily with
  fallback, exactly Python's backtracking), greedy `+`-classes and one-char
  classes.  For every pattern of the script a `+`-class is followed by a
  token that cannot consume a character of the class, so maximal munch
  without further backtracking coincides with Python's behaviour;
* fallible steps return `Except PyError _` where the constructors name the
  Python exception that would propagate.

Helpers that live outside this repository's `src/` (`clean_count`,
`enrich_data`, `increment`, `pandas.to_datetime`) are modelled from the
spec; their doc comments say so explicitly.
-/

namespace Kenya

/-- Python exceptions that the script can let propagate: an explicit
`raise Exception(msg)`, `AttributeError` (calling `.group` on a failed
`re.search`), `UnboundLocalError` (reading `doses_jj` when no page matched),
`IndexError` (`pages[0]` on an empty list), `TypeError` (`None["href"]`
when `soup.find` found no anchor) and `ValueError` (unparseable date). -/
inductive PyError where
  | exceptionMsg (msg : List Char)
  | attributeError
  | unboundLocalError
  | indexError
  | typeError
  | valueError
deriving DecidableEq, Repr

/-- Equality of `Except` results is decidable when it is on both sides. -/
instance {ε α : Type} [DecidableEq ε] [DecidableEq α] :
    DecidableEq (Except ε α) := fun x y =>
  match x, y with
  | .ok a, .ok b =>
    if h : a = b then isTrue (by rw [h])
    else isFalse (by intro he; cases he; exact h rfl)
  | .error a, .error b =>
    if h : a = b then isTrue (by rw [h])
    else isFalse (by intro he; cases he; exact h rfl)
  | .ok _, .error _ => isFalse (by intro he; exact Except.noConfusion he)
  | .error _, .ok _ => isFalse (by intro he; exact Except.noConfusion he)

/-! ### Whitespace normalization (`_get_text_from_pdf`'s inner helper) -/

/-- The ASCII whitespace characters recognised by Python's `str.split()`
(the pages of this scraper are ASCII text). -/
def isPySpace (c : Char) : Bool :=
  c = ' ' || c = '\t' || c = '\n' || c = '\x0b' || c = '\x0c' || c = '\r'

/-- Python's `str.split()` (no separator): the maximal runs of
non-whitespace characters, in order, with empty runs discarded.
`cur` is the current run, reversed. -/
def pySplitAux : List Char → List Char → List (List Char)
  | [], [] => []
  | [], w :: ws => [(w :: ws).reverse]
  | c :: cs, cur =>
    if isPySpace c then
      match cur with
      | [] => pySplitAux cs []
      | w :: ws => (w :: ws).reverse :: pySplitAux cs []
    else pySplitAux cs (c :: cur)

/-- Python's `" ".join(words)`. -/
def joinWords : List (List Char) → List Char
  | [] => []
  | [w] => w
  | w :: ws => w ++ ' ' :: joinWords ws

/-- The page normalization done for every page inside `_get_text_from_pdf`:
`page.extractText().replace("\n", "")`, then `" ".join(text.split())`,
then `.lower()` (`Char.toLower` is exactly ASCII lowercasing, which covers
these pages). -/
def _extract_pdf_text (raw : List Char) : List Char :=
  (joinWords (pySplitAux (raw.filter (fun c => !(c = '\n'))) [])).map Char.toLower

/-- One pass that collapses whitespace runs: `pending` records that a run of
whitespace was seen since the last word character, to be rendered as a
single space if and only if another word character follows. -/
def collapseGo : List Char → Bool → List Char
  | [], _ => []
  | c :: cs, pending =>
    if isPySpace c then collapseGo cs true
    else if pending then ' ' :: c :: collapseGo cs false
    else c :: collapseGo cs false

/-- The normalization that C5, as amended, attributes to the code: delete
newlines, then collapse every remaining whitespace run between words to a
single space, drop leading and trailing whitespace entirely, lowercase. -/
def amendedNorm (raw : List Char) : List Char :=
  (collapseGo ((raw.filter (fun c => !(c = '\n'))).dropWhile isPySpace) false).map
    Char.toLower

/-- Collapse every whitespace run (newlines included) to a single space,
keeping runs at the edges: `prev` records whether the previous character
was whitespace. This follows claim C5's words, for comparison with
`_extract_pdf_text`. -/
def collapseEvery : List Char → Bool → List Char
  | [], _ => []
  | c :: cs, prev =>
    if isPySpace c then
      if prev then collapseEvery cs true else ' ' :: collapseEvery cs true
    else c :: collapseEvery cs false

/-- The normalization claim C5 literally describes: the lowercased raw text
with every run of whitespace (newlines included) collapsed to one space. -/
def claimNormalize (raw : List Char) : List Char :=
  (collapseEvery raw false).map Char.toLower

/-! ### A small matcher for the script's regexes -/

/-- One piece of a regex of the script: a literal, an optional literal
(`e?`, `(day )?`, `,?`), a greedy one-or-more character class
(`[\d,.]+`, `[a-z]+`, ...) or a single-character class (`\d`).  `cap`
marks pieces whose text is captured. -/
inductive Tok where
  | lit (l : List Char)
  | opt (l : List Char) (cap : Bool)
  | plus (p : Char → Bool) (cap : Bool)
  | cls (p : Char → Bool) (cap : Bool)

/-- Match a token list at the start of `s`, returning the captured pieces in
order.  Optional pieces are tried greedily with fallback (Python's
backtracking); `+`-classes take the maximal run, which coincides with
Python for every pattern of this script because the following token never
accepts a character of the class. -/
def matchToks : List Tok → List Char → Option (List (List Char))
  | [], _ => some []
  | .lit l :: ts, s =>
    if l.isPrefixOf s then matchToks ts (s.drop l.length) else none
  | .opt l cap :: ts, s =>
    if l.isPrefixOf s then
      match matchToks ts (s.drop l.length) with
      | some gs => some (if cap then l :: gs else gs)
      | none =>
        match matchToks ts s with
        | some gs => some (if cap then [] :: gs else gs)
        | none => none
    else
      match matchToks ts s with
      | some gs => some (if cap then [] :: gs else gs)
      | none => none
  | .plus p cap :: ts, s =>
    let run := s.takeWhile p
    match run with
    | [] => none
    | _ :: _ =>
      match matchToks ts (s.dropWhile p) with
      | some gs => some (if cap then run :: gs else gs)
      | none => none
  | .cls p cap :: ts, s =>
    match s with
    | [] => none
    | c :: rest =>
      if p c then
        match matchToks ts rest with
        | some gs => some (if cap then [c] :: gs else gs)
        | none => none
      else none

/-- Python's `re.search`: try the pattern at every start position from the
left, returning the captures of the leftmost match. -/
def reSearch (ts : List Tok) : List Char → Option (List (List Char))
  | [] => matchToks ts []
  | c :: rest =>
    match matchToks ts (c :: rest) with
    | some gs => some gs
    | none => reSearch ts rest

/-- Python's `needle in haystack` substring test. -/
def containsSub (needle : List Char) : List Char → Bool
  | [] => needle.isEmpty
  | c :: t => needle.isPrefixOf (c :: t) || containsSub needle t

/-! ### Character classes of the script's regexes -/

/-- The class `[\d,.]`. -/
def isNumSep (c : Char) : Bool := c.isDigit || c = ',' || c = '.'

/-- The class `[\d,]`. -/
def isDigitComma (c : Char) : Bool := c.isDigit || c = ','

/-- The class `[\d.]`. -/
def isDigitDot (c : Char) : Bool := c.isDigit || c = '.'

/-- The class `[a-z]`. -/
def isLowerAlpha (c : Char) : Bool := 'a' ≤ c && c ≤ 'z'

/-- The class `[0-9a-z]`. -/
def isLowerAlnum (c : Char) : Bool := c.isDigit || isLowerAlpha c

/-! ### Spec-modelled helpers from outside `src/` -/

/-- Read a digit string as a natural number. -/
def natFromDigits (l : List Char) : Nat :=
  l.foldl (fun n c => n * 10 + (c.toNat - 48)) 0

/-- Modelled from the spec: `clean_count` from `cowidev.utils.clean` is not
under `src/`; the spec says each captured group is "cleaned (strip
thousands separators/decimal noise) into an integer", so the separator and
noise characters are dropped and the remaining digits are read as an
integer.  Every input the script feeds it matches `[\d,.]+`. -/
def clean_count (s : List Char) : Nat :=
  natFromDigits (s.filter (fun c => c.isDigit))

/-- ASCII digit character of `n < 10`. -/
def digit10 (n : Nat) : Char := Char.ofNat (48 + n)

/-- Two-digit zero-padded decimal rendering of `n ≤ 99`. -/
def pad2 (n : Nat) : List Char :=
  if n < 10 then ['0', digit10 n] else [digit10 (n / 10), digit10 (n % 10)]

/-- Lowercase English month names to month numbers (the pages are
lowercased before the date regex runs). -/
def monthNum (m : List Char) : Option Nat :=
  if m = "january".data then some 1
  else if m = "february".data then some 2
  else if m = "march".data then some 3
  else if m = "april".data then some 4
  else if m = "may".data then some 5
  else if m = "june".data then some 6
  else if m = "july".data then some 7
  else if m = "august".data then some 8
  else if m = "september".data then some 9
  else if m = "october".data then some 10
  else if m = "november".data then some 11
  else if m = "december".data then some 12
  else none

/-- Modelled from the spec: `str(pd.to_datetime(date_str).date())` —
`pandas` is not part of this repository.  The spec says the flexible date
phrase (day token with optional ordinal suffix and comma, month name,
year `202x`) is "parsed into a calendar date", rendered as an ISO string;
an unparseable phrase fails the run (`ValueError`). -/
def toDatetimeDate (g : List Char) : Except PyError (List Char) :=
  match pySplitAux g [] with
  | [d, m, y] =>
    match monthNum m with
    | none => .error .valueError
    | some mo =>
      let day := natFromDigits (d.takeWhile Char.isDigit)
      if 1 ≤ day ∧ day ≤ 31 then
        .ok (y ++ "-".data ++ pad2 mo ++ "-".data ++ pad2 day)
      else .error .valueError
  | _ => .error .valueError

/-! ### The script's regexes as token lists -/

/-- `r"vaccine doses dispensed as at (day )?[a-z]+ ([0-9a-z]+,? [a-z]+ 202\d)"`.
The captured pieces are the four parts of group 2: the `[0-9a-z]+` run,
the optional comma, the second `[a-z]+` run and the final `\d`. -/
def dateToks : List Tok :=
  [.lit "vaccine doses dispensed as at ".data,
   .opt "day ".data false,
   .plus isLowerAlpha false,
   .lit " ".data,
   .plus isLowerAlnum true,
   .opt ",".data true,
   .lit " ".data,
   .plus isLowerAlpha true,
   .lit " 202".data,
   .cls Char.isDigit true]

/-- `r"total doses administered above 18 ye?a?rs ([\d,.]+) total partially
vaccinated above 18 ye?a?rs ([\d,.]+) total fully vaccinated above 18 yrs
([\d,.]+)"`. -/
def primaryToks : List Tok :=
  [.lit "total doses administered above 18 y".data,
   .opt "e".data false,
   .opt "a".data false,
   .lit "rs ".data,
   .plus isNumSep true,
   .lit " total partially vaccinated above 18 y".data,
   .opt "e".data false,
   .opt "a".data false,
   .lit "rs ".data,
   .plus isNumSep true,
   .lit " total fully vaccinated above 18 yrs ".data,
   .plus isNumSep true]

/-- `r"15-18 yrs received first dose \(pfizer vaccine\) ([\d,]+)"`. -/
def teenToks : List Tok :=
  [.lit "15-18 yrs received first dose (pfizer vaccine) ".data,
   .plus isDigitComma true]

/-- `rex_jj = r"total ([\d,]+) (?:[\d,]+) (?:[\d,]+) (?:[\d,]+) (?:[\d.]+)%
table 5 shows percentage of clients"`. -/
def jjToks : List Tok :=
  [.lit "total ".data,
   .plus isDigitComma true,
   .lit " ".data,
   .plus isDigitComma false,
   .lit " ".data,
   .plus isDigitComma false,
   .lit " ".data,
   .plus isDigitComma false,
   .lit " ".data,
   .plus isDigitDot false,
   .lit "% table 5 shows percentage of clients".data]

/-- The literal marker the loop of `_extract_jj_doses` searches with
Python's `in`. -/
def marker5 : List Char :=
  "table 5: fully vaccinated vs. partially vaccinated above 18 years by priority group".data

/-- `rex_header`, which contains only (escaped) literal characters, so
`re.search` with it is a substring test. -/
def header5 : List Char :=
  "priority group johnson & johnson dose 2 uptake total fully vaccinated (j&j + dose 2 uptake) partially vaccinated (dose 1 uptake) % dose 2 uptake".data

/-- The message of the schema-drift guard's `raise Exception(...)`. -/
def headerMsg : List Char := "Header columns of table 5 have changed!".data

/-! ### The parsing functions of the `Kenya` class -/

/-- `_parse_date`: `re.search(regex, pdf_text).group(2)` followed by
`str(pd.to_datetime(date_str).date())`.  A failed search means `.group`
raises `AttributeError`.  Group 2 of the regex spans the last four
capturing tokens of `dateToks` with the literal space and `202` between
them, so it is reassembled from the captured pieces. -/
def _parse_date (pdf_text : List Char) : Except PyError (List Char) :=
  match reSearch dateToks pdf_text with
  | none => .error .attributeError
  | some gs =>
    toDatetimeDate
      (gs.getD 0 [] ++ gs.getD 1 [] ++ " ".data ++ gs.getD 2 [] ++
        " 202".data ++ gs.getD 3 [])

/-- The loop body of `_extract_jj_doses`: scan every page; on a page
containing the table-5 marker, raise the header-drift exception when the
header text is absent, otherwise store group 1 of `rex_jj` (raising
`AttributeError` when `rex_jj` does not match), overwriting any earlier
value.  `acc` is the current value of the Python local `doses_jj`. -/
def extractLoop : List (List Char) → Option (List Char) →
    Except PyError (Option (List Char))
  | [], acc => .ok acc
  | p :: rest, acc =>
    if containsSub marker5 p then
      if containsSub header5 p then
        match reSearch jjToks p with
        | none => .error .attributeError
        | some gs => extractLoop rest (some (gs.getD 0 []))
      else .error (.exceptionMsg headerMsg)
    else extractLoop rest acc

/-- `_extract_jj_doses`: run the loop over all pages, then
`clean_count(doses_jj)`; if no page ever assigned `doses_jj`, reading it
raises `UnboundLocalError`. -/
def _extract_jj_doses (pages : List (List Char)) : Except PyError Nat :=
  match extractLoop pages none with
  | .error e => .error e
  | .ok none => .error .unboundLocalError
  | .ok (some g) => .ok (clean_count g)

/-- `_parse_metrics`: on `pages[0]` run the primary-counter regex (groups
1–3: adults total, adults partial, fully vaccinated) and the teen
first-dose regex, extract the J&J adjustment from all pages, and return
`(adults_total + teen, adults_partial + jj + teen, fully)`.  A failed
search raises `AttributeError`; `pages[0]` of an empty list raises
`IndexError`. -/
def _parse_metrics (pages : List (List Char)) : Except PyError (Nat × Nat × Nat) :=
  match pages with
  | [] => .error .indexError
  | p0 :: _ =>
    match reSearch primaryToks p0 with
    | none => .error .attributeError
    | some gs =>
      match reSearch teenToks p0 with
      | none => .error .attributeError
      | some hs =>
        match _extract_jj_doses pages with
        | .error e => .error e
        | .ok jj =>
          .ok (clean_count (gs.getD 0 []) + clean_count (hs.getD 0 []),
               clean_count (gs.getD 1 []) + jj + clean_count (hs.getD 0 []),
               clean_count (gs.getD 2 []))

/-! ### The landing page and the link resolver -/

/-- An `<a>` element of the landing page; `href` is `none` when the anchor
has no `href` attribute (such anchors never satisfy an href filter). -/
structure Anchor where
  href : Option (List Char)
deriving DecidableEq

/-- Does `"IMMUNIZATION"` occur in `s` with no newline after it?  (The
`.*` between `IMMUNIZATION` and `pdf` matches any characters except
newlines.) -/
def suffixHasImm : List Char → Bool
  | [] => false
  | c :: t =>
    ("IMMUNIZATION".data.isPrefixOf (c :: t) &&
      ((c :: t).drop 12).all (fun d => !(d = '\n'))) || suffixHasImm t

/-- `re.compile(".*IMMUNIZATION.*pdf$").search(h)` succeeds: `h` ends in
`pdf` (`$` also matches just before one trailing newline) and contains
`IMMUNIZATION` before that with no newline in between.  Case-sensitive. -/
def hrefMatches (h : List Char) : Bool :=
  let core := if h.getLast? = some '\n' then h.dropLast else h
  "pdf".data.isSuffixOf core && suffixHasImm (core.take (core.length - 3))

/-- `soup.find("a", {"href": re.compile(...)})` filter on one anchor. -/
def anchorMatches (a : Anchor) : Bool :=
  match a.href with
  | some h => hrefMatches h
  | none => false

/-- The href of the first anchor, in document order, whose href matches. -/
def findPdfHref : List Anchor → Option (List Char)
  | [] => none
  | a :: rest =>
    match a.href with
    | some h => if hrefMatches h then some h else findPdfHref rest
    | none => findPdfHref rest

/-- `_parse_pdf_link`: the first matching anchor's href; when `soup.find`
returns `None`, the subscript `[...]` on it raises `TypeError`. -/
def _parse_pdf_link (anchors : List Anchor) : Except PyError (List Char) :=
  match findPdfHref anchors with
  | some h => .ok h
  | none => .error .typeError

/-! ### The environment and the pipeline -/

/-- The external world a run sees: the anchors of the landing page at
`self.source_url`, and the raw per-page text `PyPDF2` would extract from
the PDF at a given URL. -/
structure World where
  anchors : List Anchor
  rawPages : List Char → List (List Char)

/-- `self.location` set in `__init__`. -/
def location : List Char := "Kenya".data

/-- `self.source_url` set in `__init__` (the landing page, not a PDF). -/
def source_url : List Char := "https://www.health.go.ke".data

/-- `_get_text_from_pdf`: download the PDF at `url` and normalize the text
of each page with `_extract_pdf_text`. -/
def _get_text_from_pdf (w : World) (url : List Char) : List (List Char) :=
  (w.rawPages url).map _extract_pdf_text

/-- The row `read` builds; `location` and `vaccine` are absent until the
enrichment steps add them. -/
structure Series where
  total_vaccinations : Nat
  people_vaccinated : Nat
  people_fully_vaccinated : Nat
  date : List Char
  source_url : List Char
  location : Option (List Char) := none
  vaccine : Option (List Char) := none
deriving DecidableEq

/-- `read`, plus an explicit trace of the PDF URLs fetched: the second
component lists every URL passed to `_get_text_from_pdf` (each such call
performs the HTTP GET of the PDF), so `[]` means no PDF bytes were ever
requested. -/
def read (w : World) : Except PyError Series × List (List Char) :=
  match _parse_pdf_link w.anchors with
  | .error e => (.error e, [])
  | .ok url_pdf =>
    let pages := _get_text_from_pdf w url_pdf
    (match _parse_metrics pages with
     | .error e => .error e
     | .ok (t, pv, pf) =>
       match pages with
       | [] => .error .indexError
       | p0 :: _ =>
         match _parse_date p0 with
         | .error e => .error e
         | .ok d =>
           .ok { total_vaccinations := t, people_vaccinated := pv,
                 people_fully_vaccinated := pf, date := d,
                 source_url := url_pdf },
     [url_pdf])

/-- Modelled from the spec: `enrich_data` from
`cowidev.vax.utils.incremental` is not under `src/`; the spec says it
"attaches static location and vaccine-list strings to the parsed row",
so it sets the named field of the row.  Only the two keys the script uses
are meaningful; any other key leaves the row unchanged. -/
def enrich_data (ds : Series) (key value : List Char) : Series :=
  if key = "location".data then { ds with location := some value }
  else if key = "vaccine".data then { ds with vaccine := some value }
  else ds

/-- `pipe_location`. -/
def pipe_location (ds : Series) : Series :=
  enrich_data ds "location".data location

/-- `pipe_vaccine`. -/
def pipe_vaccine (ds : Series) : Series :=
  enrich_data ds "vaccine".data "Oxford/AstraZeneca, Sputnik V".data

/-- `pipeline`: `ds.pipe(self.pipe_location).pipe(self.pipe_vaccine)`. -/
def pipeline (ds : Series) : Series :=
  pipe_vaccine (pipe_location ds)

/-- Modelled from the spec: the arguments `to_csv` hands to the external
append-only writer `increment`, captured as a record (the writer itself is
out of scope per the spec). -/
structure IncrementArgs where
  location : Option (List Char)
  total_vaccinations : Nat
  people_vaccinated : Nat
  people_fully_vaccinated : Nat
  date : List Char
  source_url : List Char
  vaccine : Option (List Char)
deriving DecidableEq

/-- `to_csv`: `read` then `pipeline`, then the fields passed to
`increment`; the PDF-fetch trace of `read` is carried through. -/
def to_csv (w : World) : Except PyError IncrementArgs × List (List Char) :=
  match read w with
  | (.error e, tr) => (.error e, tr)
  | (.ok ds, tr) =>
    let d := pipeline ds
    (.ok { location := d.location, total_vaccinations := d.total_vaccinations,
           people_vaccinated := d.people_vaccinated,
           people_fully_vaccinated := d.people_fully_vaccinated,
           date := d.date, source_url := d.source_url, vaccine := d.vaccine },
     tr)

/-! ### Concrete sample data used by witnesses and counterexamples -/

/-- The sample page-1 text of claim C6. -/
def c6Sample : List Char :=
  "total doses administered above 18 years 1,000,000 total partially vaccinated above 18 years 900,000 total fully vaccinated above 18 yrs 800,000".data

/-- The date phrase of claim C3 exactly as the claim writes it, with the
comma directly after the weekday. -/
def datePhraseComma : List Char :=
  "vaccine doses dispensed as at friday, 14th january 2022".data

/-- The date phrase with the comma after the weekday dropped, which the
regex does accept. -/
def datePhrase : List Char :=
  "vaccine doses dispensed as at friday 14th january 2022".data

/-- A full normalized page 1: date phrase, the three adult counters, the
teen first-dose counter, the table-5 marker, the intact table-5 header and
a total row (J&J value 10,000). -/
def demoPage0 : List Char :=
  "vaccine doses dispensed as at friday 14th january 2022 total doses administered above 18 years 1,000,000 total partially vaccinated above 18 years 900,000 total fully vaccinated above 18 yrs 800,000 15-18 yrs received first dose (pfizer vaccine) 50,000 table 5: fully vaccinated vs. partially vaccinated above 18 years by priority group priority group johnson & johnson dose 2 uptake total fully vaccinated (j&j + dose 2 uptake) partially vaccinated (dose 1 uptake) % dose 2 uptake total 10,000 1 2 3 4.5% table 5 shows percentage of clients".data

/-- A bulletin PDF URL whose href matches the link pattern. -/
def demoUrl : List Char :=
  "https://www.health.go.ke/wp-content/uploads/2022/01/MINISTRY-OF-HEALTH-KENYA-COVID-19-IMMUNIZATION-STATUS-REPORT.pdf".data

/-- The same URL entirely lowercased; it matches the link pattern only up
to letter case. -/
def demoUrlLower : List Char :=
  "https://www.health.go.ke/wp-content/uploads/2022/01/ministry-of-health-kenya-covid-19-immunization-status-report.pdf".data

/-- A world whose landing page links the demo bulletin and whose PDF has
`demoPage0` as its only page. -/
def demoWorld : World where
  anchors := [⟨none⟩, ⟨some "https://www.health.go.ke/about".data⟩, ⟨some demoUrl⟩]
  rawPages := fun _ => [demoPage0]

/-- The `IncrementArgs` record the demo world produces. -/
def demoArgs : IncrementArgs where
  location := some location
  total_vaccinations := 1050000
  people_vaccinated := 960000
  people_fully_vaccinated := 800000
  date := "2022-01-14".data
  source_url := demoUrl
  vaccine := some "Oxford/AstraZeneca, Sputnik V".data

/-- A landing page with no anchor matching the PDF link pattern. -/
def noLinkWorld : World where
  anchors := [⟨none⟩, ⟨some "https://www.health.go.ke/about".data⟩,
              ⟨some demoUrlLower⟩]
  rawPages := fun _ => [demoPage0]

/-- A page with the table-5 marker and the intact header but no total row:
on it `rex_header` passes and `rex_jj` fails. -/
def pageA : List Char := marker5 ++ " ".data ++ header5

/-- A page with the table-5 marker and the header altered in one word
(`johnson` → `jonson`), so the header regex no longer matches. -/
def pageB : List Char :=
  marker5 ++ " priority group jonson & johnson dose 2 uptake total fully vaccinated (j&j + dose 2 uptake) partially vaccinated (dose 1 uptake) % dose 2 uptake".data

/-- A complete marker page whose total row carries 7,000. -/
def pageM1 : List Char :=
  marker5 ++ " ".data ++ header5 ++
    " total 7,000 1 2 3 4.5% table 5 shows percentage of clients".data

/-- A complete marker page whose total row carries 10,000. -/
def pageM2 : List Char :=
  marker5 ++ " ".data ++ header5 ++
    " total 10,000 1 2 3 4.5% table 5 shows percentage of clients".data

/-- A page without the table-5 marker. -/
def pageNoMarker : List Char := "no tables here".data

/-! ## Helper lemmas -/

theorem pySplitAux_ne_nil (s : List Char) :
    ∀ cur : List Char, cur ≠ [] → pySplitAux s cur ≠ [] := by
  induction s with
  | nil =>
    intro cur hc
    cases cur with
    | nil => exact absurd rfl hc
    | cons w ws => simp [pySplitAux]
  | cons c cs ih =>
    intro cur hc
    by_cases h : isPySpace c = true
    · cases cur with
      | nil => exact absurd rfl hc
      | cons w ws => simp [pySplitAux, h]
    · simpa [pySplitAux, h] using ih (c :: cur) (by simp)

/-- Splitting on whitespace and rejoining with single spaces equals a
single collapsing pass: the four statements are proved together by one
induction on the string. -/
theorem normAux (s : List Char) :
    (joinWords (pySplitAux s []) = collapseGo (s.dropWhile isPySpace) false) ∧
    (∀ cur : List Char, cur ≠ [] →
      joinWords (pySplitAux s cur) = cur.reverse ++ collapseGo s false) ∧
    (collapseGo s true =
      if s.dropWhile isPySpace = [] then []
      else ' ' :: collapseGo (s.dropWhile isPySpace) false) ∧
    (pySplitAux s [] = [] ↔ s.dropWhile isPySpace = []) := by
  induction s with
  | nil =>
    refine ⟨rfl, ?_, by simp [collapseGo], by simp [pySplitAux]⟩
    intro cur hc
    cases cur with
    | nil => exact absurd rfl hc
    | cons w ws => simp [pySplitAux, joinWords, collapseGo]
  | cons c cs ih =>
    obtain ⟨ih1, ih2, ih3, ih4⟩ := ih
    by_cases h : isPySpace c = true
    · refine ⟨?_, ?_, ?_, ?_⟩
      · simpa [pySplitAux, h, collapseGo, List.dropWhile_cons_of_pos h] using ih1
      · intro cur hc
        cases cur with
        | nil => exact absurd rfl hc
        | cons w ws =>
          have hstep : pySplitAux (c :: cs) (w :: ws) =
              (w :: ws).reverse :: pySplitAux cs [] := by
            simp [pySplitAux, h]
          have hcoll : collapseGo (c :: cs) false = collapseGo cs true := by
            simp [collapseGo, h]
          cases hX : pySplitAux cs [] with
          | nil =>
            have hd : cs.dropWhile isPySpace = [] := ih4.mp hX
            have h3 : collapseGo cs true = [] := by rw [ih3, if_pos hd]
            rw [hstep, hX, hcoll, h3]
            simp [joinWords]
          | cons x xs =>
            have hd : ¬ cs.dropWhile isPySpace = [] := by
              intro hd
              have h0 := ih4.mpr hd
              rw [hX] at h0
              exact List.noConfusion h0
            have h3 : collapseGo cs true =
                ' ' :: collapseGo (cs.dropWhile isPySpace) false := by
              rw [ih3, if_neg hd]
            have h1 : joinWords (x :: xs) =
                collapseGo (cs.dropWhile isPySpace) false := by
              rw [← hX]; exact ih1
            rw [hstep, hX, hcoll, h3, ← h1]
            simp [joinWords]
      · simp only [collapseGo, h, if_pos, List.dropWhile_cons_of_pos h]
        exact ih3
      · simpa [pySplitAux, h, List.dropWhile_cons_of_pos h] using ih4
    · refine ⟨?_, ?_, ?_, ?_⟩
      · have h2 := ih2 [c] (by simp)
        have hstep : pySplitAux (c :: cs) [] = pySplitAux cs [c] := by
          simp [pySplitAux, h]
        rw [hstep, h2, List.dropWhile_cons_of_neg h]
        simp [collapseGo, h]
      · intro cur hc
        have h2 := ih2 (c :: cur) (by simp)
        have hstep : pySplitAux (c :: cs) cur = pySplitAux cs (c :: cur) := by
          simp [pySplitAux, h]
        rw [hstep, h2]
        simp [collapseGo, h]
      · simp [collapseGo, h, List.dropWhile_cons_of_neg h]
      · constructor
        · intro hx
          have hstep : pySplitAux (c :: cs) [] = pySplitAux cs [c] := by
            simp [pySplitAux, h]
          rw [hstep] at hx
          exact absurd hx (pySplitAux_ne_nil cs [c] (by simp))
        · intro hx
          rw [List.dropWhile_cons_of_neg h] at hx
          exact List.noConfusion hx

/-- Split-join on whitespace is one collapsing pass over the string. -/
theorem joinWords_pySplitAux (s : List Char) :
    joinWords (pySplitAux s []) = collapseGo (s.dropWhile isPySpace) false :=
  (normAux s).1

/-- The loop of `_extract_jj_doses` leaves `doses_jj` untouched over pages
without the table-5 marker. -/
theorem extractLoop_no_marker :
    ∀ (pages : List (List Char)) (acc : Option (List Char)),
      (∀ p ∈ pages, containsSub marker5 p = false) →
      extractLoop pages acc = .ok acc := by
  intro pages
  induction pages with
  | nil => intro acc _; rfl
  | cons p rest ih =>
    intro acc hno
    have hp : containsSub marker5 p = false := hno p (by simp)
    simp only [extractLoop, hp, Bool.false_eq_true, if_neg, ite_false]
    exact ih acc (fun q hq => hno q (by simp [hq]))

/-- Reaching a marker page whose header regex fails raises the header-drift
exception, provided every earlier marker page got through both of its
regex checks. -/
theorem extractLoop_drift (bad : List Char) (rest : List (List Char))
    (hm : containsSub marker5 bad = true) (hh : containsSub header5 bad = false) :
    ∀ (pre : List (List Char)) (acc : Option (List Char)),
      (∀ p ∈ pre, containsSub marker5 p = true →
        containsSub header5 p = true ∧ reSearch jjToks p ≠ none) →
      extractLoop (pre ++ bad :: rest) acc = .error (.exceptionMsg headerMsg) := by
  intro pre
  induction pre with
  | nil => intro acc _; simp [extractLoop, hm, hh]
  | cons q pre ih =>
    intro acc hpre
    by_cases hq : containsSub marker5 q = true
    · obtain ⟨hqh, hqs⟩ := hpre q (by simp) hq
      cases hs : reSearch jjToks q with
      | none => exact absurd hs hqs
      | some gs =>
        simp only [List.cons_append, extractLoop, hq, hqh, hs, if_pos, ite_true]
        exact ih _ (fun p hp hmp => hpre p (by simp [hp]) hmp)
    · simp only [List.cons_append, extractLoop, hq, Bool.false_eq_true, if_neg,
        ite_false]
      exact ih acc (fun p hp hmp => hpre p (by simp [hp]) hmp)

/-- After the last marker page, the loop carries that page's captured group
to the end. -/
theorem extractLoop_last (p : List Char) (gs : List (List Char))
    (l2 : List (List Char))
    (hm : containsSub marker5 p = true) (hh : containsSub header5 p = true)
    (hs : reSearch jjToks p = some gs)
    (hl2 : ∀ q ∈ l2, containsSub marker5 q = false) :
    ∀ (l1 : List (List Char)) (acc : Option (List Char)),
      (∀ q ∈ l1, containsSub marker5 q = true →
        containsSub header5 q = true ∧ reSearch jjToks q ≠ none) →
      extractLoop (l1 ++ p :: l2) acc = .ok (some (gs.getD 0 [])) := by
  intro l1
  induction l1 with
  | nil =>
    intro acc _
    simp only [List.nil_append, extractLoop, hm, hh, hs, if_pos, ite_true]
    exact extractLoop_no_marker l2 _ hl2
  | cons q l1 ih =>
    intro acc hpre
    by_cases hq : containsSub marker5 q = true
    · obtain ⟨hqh, hqs⟩ := hpre q (by simp) hq
      cases hqres : reSearch jjToks q with
      | none => exact absurd hqres hqs
      | some gq =>
        simp only [List.cons_append, extractLoop, hq, hqh, hqres, if_pos, ite_true]
        exact ih _ (fun r hr hmr => hpre r (by simp [hr]) hmr)
    · simp only [List.cons_append, extractLoop, hq, Bool.false_eq_true, if_neg,
        ite_false]
      exact ih acc (fun r hr hmr => hpre r (by simp [hr]) hmr)

/-- When no anchor passes the href filter, `soup.find` returns `None`. -/
theorem findPdfHref_none (anchors : List Anchor)
    (hno : ∀ a ∈ anchors, anchorMatches a = false) :
    findPdfHref anchors = none := by
  induction anchors with
  | nil => rfl
  | cons a t ih =>
    have ha := hno a (by simp)
    cases hah : a.href with
    | none =>
      simp only [findPdfHref, hah]
      exact ih (fun b hb => hno b (by simp [hb]))
    | some x =>
      have hx : hrefMatches x = false := by
        simpa [anchorMatches, hah] using hno a (by simp)
      simp only [findPdfHref, hah, hx]
      simpa using ih (fun b hb => hno b (by simp [hb]))

/-- The first anchor whose href passes the filter is the one returned. -/
theorem findPdfHref_first (a : Anchor) (post : List Anchor) (h : List Char)
    (ha : a.href = some h) (hm : hrefMatches h = true) :
    ∀ pre : List Anchor, (∀ b ∈ pre, anchorMatches b = false) →
      findPdfHref (pre ++ a :: post) = some h := by
  intro pre
  induction pre with
  | nil => intro _; simp [findPdfHref, ha, hm]
  | cons b t ih =>
    intro hpre
    have hb := hpre b (by simp)
    cases hbh : b.href with
    | none =>
      simp only [List.cons_append, findPdfHref, hbh]
      exact ih (fun x hx => hpre x (by simp [hx]))
    | some x =>
      have hx : hrefMatches x = false := by
        simpa [anchorMatches, hbh] using hpre b (by simp)
      simp only [List.cons_append, findPdfHref, hbh, hx]
      simpa using ih (fun y hy => hpre y (by simp [hy]))

/-- Whatever href `findPdfHref` returns passed the href filter. -/
theorem findPdfHref_matches :
    ∀ (anchors : List Anchor) (h : List Char),
      findPdfHref anchors = some h → hrefMatches h = true := by
  intro anchors
  induction anchors with
  | nil => intro h hh; exact Option.noConfusion hh
  | cons a t ih =>
    intro h hh
    cases hah : a.href with
    | none =>
      rw [findPdfHref, hah] at hh
      exact ih h hh
    | some x =>
      by_cases hx : hrefMatches x = true
      · simp only [findPdfHref, hah, if_pos hx] at hh
        cases hh
        exact hx
      · simp only [findPdfHref, hah, hx] at hh
        simp only [Bool.false_eq_true, if_false] at hh
        exact ih h hh

/-- A URL `_parse_pdf_link` returns matched the case-sensitive pattern. -/
theorem parse_pdf_link_matches (anchors : List Anchor) (url : List Char)
    (hl : _parse_pdf_link anchors = .ok url) : hrefMatches url = true := by
  unfold _parse_pdf_link at hl
  cases hf : findPdfHref anchors with
  | none => rw [hf] at hl; exact Except.noConfusion hl
  | some h =>
    rw [hf] at hl
    cases hl
    exact findPdfHref_matches anchors url hf

/-! ## Claims -/

/-- C1: for every valid parse of page 1 — the primary-counter regex and the
teen-first-dose regex both match, and the J&J adjustment extraction
succeeds — `_parse_metrics` returns `total_vaccinations =
adults_total_vaccinations + teenagers_first_doses`, `people_vaccinated =
adults_partially_vaccinated + jj_doses + teenagers_first_doses`, and
`people_fully_vaccinated` equal to the cleaned third captured counter of
the page text. -/
theorem claim_C1 (p0 : List Char) (rest : List (List Char))
    (gs hs : List (List Char)) (jj : Nat)
    (h1 : reSearch primaryToks p0 = some gs)
    (h2 : reSearch teenToks p0 = some hs)
    (h3 : _extract_jj_doses (p0 :: rest) = .ok jj) :
    _parse_metrics (p0 :: rest) =
      .ok (clean_count (gs.getD 0 []) + clean_count (hs.getD 0 []),
           clean_count (gs.getD 1 []) + jj + clean_count (hs.getD 0 []),
           clean_count (gs.getD 2 [])) := by
  simp [_parse_metrics, h1, h2, h3]

/-- Witness for C1 at the demo page: adults 1,000,000/900,000/800,000,
teens 50,000, J&J 10,000 give `(1050000, 960000, 800000)`. -/
theorem claim_C1_witness :
    _parse_metrics [demoPage0] =
      .ok (1050000, 960000, 800000) :=
  claim_C1 demoPage0 []
    ["1,000,000".data, "900,000".data, "800,000".data] ["50,000".data] 10000
    (by decide) (by decide) (by decide)

/-- C2 counterexample: the claim quantifies over every page list in which
some page has the table-5 marker but not the header text.  In
`[pageA, pageB]` the second page (`pageB`) is such a page, yet the loop
dies earlier with a generic `AttributeError` on `pageA`, whose header is
intact but whose total row is missing — not with the descriptive
header-drift exception. -/
theorem claim_C2_cex :
    containsSub marker5 pageB = true ∧ containsSub header5 pageB = false ∧
    _extract_jj_doses [pageA, pageB] = .error .attributeError ∧
    _extract_jj_doses [pageA, pageB] ≠ .error (.exceptionMsg headerMsg) := by
  refine ⟨by decide, by decide, by decide, by decide⟩

/-- C2 (amended): if some page contains the table-5 marker but the header
regex does not match it, and every earlier marker page passes both the
header check and the total-row regex, then `_extract_jj_doses` raises the
descriptive `Exception("Header columns of table 5 have changed!")` rather
than a generic match failure; in particular altering one word of the
header on the (sole) marker page triggers it. -/
theorem claim_C2 (pre : List (List Char)) (bad : List Char)
    (rest : List (List Char))
    (hm : containsSub marker5 bad = true)
    (hh : containsSub header5 bad = false)
    (hpre : ∀ p ∈ pre, containsSub marker5 p = true →
      containsSub header5 p = true ∧ reSearch jjToks p ≠ none) :
    _extract_jj_doses (pre ++ bad :: rest) = .error (.exceptionMsg headerMsg) := by
  unfold _extract_jj_doses
  rw [extractLoop_drift bad rest hm hh pre none hpre]

/-- Witness for C2: on the single page whose header has one word altered
(`johnson` → `jonson`), the header-drift exception is raised. -/
theorem claim_C2_witness :
    _extract_jj_doses [pageB] = .error (.exceptionMsg headerMsg) :=
  claim_C2 [] pageB [] (by decide) (by decide) (by simp)

/-- C3 counterexample: on the exact page text the claim supplies —
`"vaccine doses dispensed as at friday, 14th january 2022"` — the date
regex requires a space immediately after the weekday word, so with the
comma there `re.search` returns `None` and `_parse_date` raises
`AttributeError` instead of returning `"2022-01-14"`. -/
theorem claim_C3_cex :
    _parse_date datePhraseComma = .error .attributeError ∧
    _parse_date datePhraseComma ≠ .ok "2022-01-14".data := by
  refine ⟨by decide, by decide⟩

/-- C3 (amended): with the comma moved off the weekday — page-1 text
beginning `"vaccine doses dispensed as at friday 14th january 2022"`,
whatever follows — `_parse_date` matches the date regex and returns the
ISO date string `"2022-01-14"`. -/
theorem claim_C3 (post : List Char) :
    _parse_date (datePhrase ++ post) = .ok "2022-01-14".data := rfl

/-- Witness for C3 at the bare phrase. -/
theorem claim_C3_witness :
    _parse_date (datePhrase ++ []) = .ok "2022-01-14".data :=
  claim_C3 []

/-- C4: if zero pages contain the table-5 marker, `_extract_jj_doses`
fails with the unhandled reference error (`doses_jj` is never bound
before being returned); and whenever a marker page is followed only by
non-marker pages, the value extracted from it — the last matching page,
however many matching pages came before — is silently used as the
adjustment counter. -/
theorem claim_C4 :
    (∀ pages : List (List Char),
      (∀ p ∈ pages, containsSub marker5 p = false) →
      _extract_jj_doses pages = .error .unboundLocalError) ∧
    (∀ (l1 : List (List Char)) (p : List Char) (l2 : List (List Char))
        (gs : List (List Char)),
      (∀ q ∈ l1, containsSub marker5 q = true →
        containsSub header5 q = true ∧ reSearch jjToks q ≠ none) →
      containsSub marker5 p = true →
      containsSub header5 p = true →
      reSearch jjToks p = some gs →
      (∀ q ∈ l2, containsSub marker5 q = false) →
      _extract_jj_doses (l1 ++ p :: l2) = .ok (clean_count (gs.getD 0 []))) := by
  constructor
  · intro pages hno
    unfold _extract_jj_doses
    rw [extractLoop_no_marker pages none hno]
  · intro l1 p l2 gs hl1 hm hh hs hl2
    unfold _extract_jj_doses
    rw [extractLoop_last p gs l2 hm hh hs hl2 l1 none hl1]

/-- Witness for C4: no marker page gives the unbound-local failure; with
two complete marker pages (values 7,000 then 10,000) the later page's
10,000 is used. -/
theorem claim_C4_witness :
    _extract_jj_doses [pageNoMarker] = .error .unboundLocalError ∧
    _extract_jj_doses [pageM1, pageM2] = .ok 10000 :=
  ⟨claim_C4.1 [pageNoMarker] (by decide),
   claim_C4.2 [pageM1] pageM2 [] ["10,000".data]
     (by decide) (by decide) (by decide) (by decide) (by simp)⟩

/-- C5 counterexample: the claim says the normalized page equals the
lowercased raw text with every whitespace run collapsed to a single
space, newlines included.  On the raw page `"a\nb"` the code deletes the
newline before collapsing, producing `"ab"`, while the claimed
normalization produces `"a b"`. -/
theorem claim_C5_cex :
    _extract_pdf_text "a\nb".data = "ab".data ∧
    claimNormalize "a\nb".data = "a b".data ∧
    _extract_pdf_text "a\nb".data ≠ claimNormalize "a\nb".data := by
  refine ⟨by decide, by decide, by decide⟩

/-- C5 (amended): for every raw page text, the normalized page equals the
lowercased form of the raw text with the newline characters first
removed, the remaining whitespace runs collapsed to single spaces, and
leading and trailing whitespace dropped entirely. -/
theorem claim_C5 (raw : List Char) : _extract_pdf_text raw = amendedNorm raw := by
  unfold _extract_pdf_text amendedNorm
  rw [joinWords_pySplitAux]

/-- Witness for C5 on a raw page exercising tabs, newlines, runs and
edge whitespace. -/
theorem claim_C5_witness :
    _extract_pdf_text "  Total \n Doses\t10  ".data =
      amendedNorm "  Total \n Doses\t10  ".data :=
  claim_C5 "  Total \n Doses\t10  ".data

/-- C6: on the sample page-1 text the primary-counter regex matches and
its three captured groups are `1,000,000`, `900,000` and `800,000`, which
clean to 1000000, 900000 and 800000. -/
theorem claim_C6 :
    reSearch primaryToks c6Sample =
      some ["1,000,000".data, "900,000".data, "800,000".data] ∧
    clean_count "1,000,000".data = 1000000 ∧
    clean_count "900,000".data = 900000 ∧
    clean_count "800,000".data = 800000 := by
  refine ⟨by decide, by decide, by decide, by decide⟩

/-- C7: when no anchor of the landing page passes the PDF link filter,
the run fails with the `TypeError` raised inside `_parse_pdf_link`, and
the PDF-fetch trace is empty: `_get_text_from_pdf` is never invoked and
no PDF bytes are requested. -/
theorem claim_C7 (w : World)
    (hno : ∀ a ∈ w.anchors, anchorMatches a = false) :
    read w = (.error .typeError, []) := by
  have h := findPdfHref_none w.anchors hno
  simp [read, _parse_pdf_link, h]

/-- Witness for C7: a landing page whose only candidate href matches the
pattern in the wrong letter case. -/
theorem claim_C7_witness : read noLinkWorld = (.error .typeError, []) :=
  claim_C7 noLinkWorld (by decide)

/-- C8: `_parse_pdf_link` returns the href of the first anchor, in
document order, whose href matches the case-sensitive pattern
`.*IMMUNIZATION.*pdf$`; and the same URL with `immunization` in lowercase
does not match the pattern. -/
theorem claim_C8 :
    (∀ (pre : List Anchor) (a : Anchor) (post : List Anchor) (h : List Char),
      (∀ b ∈ pre, anchorMatches b = false) → a.href = some h →
      hrefMatches h = true →
      _parse_pdf_link (pre ++ a :: post) = .ok h) ∧
    hrefMatches demoUrlLower = false := by
  constructor
  · intro pre a post h hpre ha hm
    unfold _parse_pdf_link
    rw [findPdfHref_first a post h ha hm pre hpre]
  · decide

/-- Witness for C8: with a bare anchor and a lowercase-only candidate
before it, the matching bulletin URL anchor is the one selected, even
though another matching anchor follows. -/
theorem claim_C8_witness :
    _parse_pdf_link
      [⟨none⟩, ⟨some demoUrlLower⟩, ⟨some demoUrl⟩,
       ⟨some "https://www.health.go.ke/IMMUNIZATION-2021.pdf".data⟩] =
      .ok demoUrl :=
  claim_C8.1 [⟨none⟩, ⟨some demoUrlLower⟩] ⟨some demoUrl⟩
    [⟨some "https://www.health.go.ke/IMMUNIZATION-2021.pdf".data⟩] demoUrl
    (by decide) rfl (by decide)

/-- C9: `pipeline` (`pipe_location` then `pipe_vaccine`) only adds the
fields `location = "Kenya"` and `vaccine = "Oxford/AstraZeneca, Sputnik V"`;
the five parsed fields are unchanged by the enrichment. -/
theorem claim_C9 (ds : Series) :
    (pipeline ds).total_vaccinations = ds.total_vaccinations ∧
    (pipeline ds).people_vaccinated = ds.people_vaccinated ∧
    (pipeline ds).people_fully_vaccinated = ds.people_fully_vaccinated ∧
    (pipeline ds).date = ds.date ∧
    (pipeline ds).source_url = ds.source_url ∧
    (pipeline ds).location = some location ∧
    (pipeline ds).vaccine = some "Oxford/AstraZeneca, Sputnik V".data :=
  ⟨rfl, rfl, rfl, rfl, rfl, rfl, rfl⟩

/-- Witness for C9 at a concrete parsed row. -/
theorem claim_C9_witness :
    (pipeline { total_vaccinations := 1050000, people_vaccinated := 960000,
                people_fully_vaccinated := 800000, date := "2022-01-14".data,
                source_url := demoUrl }).location = some location :=
  (claim_C9 { total_vaccinations := 1050000, people_vaccinated := 960000,
              people_fully_vaccinated := 800000, date := "2022-01-14".data,
              source_url := demoUrl }).2.2.2.2.2.1

/-- C10: on every successful run, the `source_url` field handed to the
external writer is the PDF URL `_parse_pdf_link` discovered, and that URL
is never the hardcoded landing-page URL `"https://www.health.go.ke"`
stored in the `source_url` attribute (a matching href must end in
`pdf`). -/
theorem claim_C10 (w : World) (url : List Char) (args : IncrementArgs)
    (tr : List (List Char))
    (hl : _parse_pdf_link w.anchors = .ok url)
    (hr : to_csv w = (.ok args, tr)) :
    args.source_url = url ∧ url ≠ source_url := by
  constructor
  · cases hm : _parse_metrics (_get_text_from_pdf w url) with
    | error e =>
      simp [to_csv, read, hl, hm] at hr
    | ok tpv =>
      obtain ⟨t, pv, pf⟩ := tpv
      cases hp : _get_text_from_pdf w url with
      | nil =>
        rw [hp] at hm
        exact absurd hm (by simp [_parse_metrics])
      | cons p0 ps =>
        rw [hp] at hm
        cases hd : _parse_date p0 with
        | error e =>
          simp [to_csv, read, hl, hp, hm, hd] at hr
        | ok d =>
          simp [to_csv, read, hl, hp, hm, hd, pipeline, pipe_location,
            pipe_vaccine, enrich_data] at hr
          obtain ⟨harg, _⟩ := hr
          rw [← harg]
  · intro he
    have hmatch := parse_pdf_link_matches w.anchors url hl
    rw [he] at hmatch
    exact absurd hmatch (by decide)

/-- Witness for C10: the demo world's successful run emits the discovered
bulletin URL, which differs from the landing page URL. -/
theorem claim_C10_witness :
    demoArgs.source_url = demoUrl ∧ demoUrl ≠ source_url :=
  claim_C10 demoWorld demoUrl demoArgs [demoUrl] (by decide) (by decide)

end Kenya
